import Mathlib

/-!
Shallow embedding of the hand-pose validation and capture-gating engine of
the dot_projector application (src/app.js), together with theorems checking
the natural-language specification against it.

Coordinates are modelled as real numbers; JavaScript `Math.round` is modelled
as `fun x => ⌊x + 1/2⌋` (its behaviour on all finite inputs), timestamps as
integers (milliseconds).
-/

namespace DotProjector

/-- A single hand landmark: normalized x, y in [0,1] and relative depth z. -/
@[ext] structure Landmark where
  x : ℝ
  y : ℝ
  z : ℝ

instance : Inhabited Landmark := ⟨⟨0, 0, 0⟩⟩

/-- A detected hand: exactly 21 landmarks, indexed 0–20. -/
abbrev Hand := Fin 21 → Landmark

/-- JavaScript `Math.round`: round half up, i.e. `⌊x + 1/2⌋`. -/
noncomputable def jsRound (x : ℝ) : ℤ := ⌊x + 1 / 2⌋

/-- `calculatePalmCenter` (app.js 1107–1115): midpoint of wrist (0) and
middle-finger base (9). -/
noncomputable def calculatePalmCenter (lm : Hand) : Landmark :=
  { x := ((lm 0).x + (lm 9).x) / 2
    y := ((lm 0).y + (lm 9).y) / 2
    z := ((lm 0).z + (lm 9).z) / 2 }

/-- `calculatePalmArea` (app.js 1198–1211): unsigned shoelace area of the
polygon through landmarks 0, 5, 9, 13, 17. -/
noncomputable def calculatePalmArea (lm : Hand) : ℝ :=
  let pts : List (Fin 21) := [0, 5, 9, 13, 17]
  let area := (List.range 5).foldl (fun acc i =>
    let p1 := lm (pts.getD i 0)
    let p2 := lm (pts.getD ((i + 1) % 5) 0)
    acc + (p1.x * p2.y - p2.x * p1.y)) 0
  |area / 2|

/-- The piecewise palm-area → centimetre map used by `calculateDistance`
(app.js 1135–1145). -/
noncomputable def distanceFromArea (palmArea : ℝ) : ℤ :=
  if palmArea > 0.08 then 5
  else if palmArea > 0.05 then jsRound (5 + (0.08 - palmArea) * 500)
  else if palmArea > 0.01 then jsRound (20 + (0.05 - palmArea) * 625)
  else jsRound (45 + (0.01 - palmArea) * 4000)

/-- `calculateDistance` (app.js 1124–1148): ignores its `palmCenter`
argument and maps the palm area of the current hand to centimetres. -/
noncomputable def calculateDistance (palmData : Hand) : ℤ :=
  distanceFromArea (calculatePalmArea palmData)

/-- The handedness label supplied by the landmark detector
(`this.handedness`; `null` is modelled as `Unknown`). -/
inductive Handedness where
  | Left
  | Right
  | Unknown
deriving DecidableEq

/-- 2D Euclidean distance between the (x, y) projections of two landmarks. -/
noncomputable def dist2d (p q : Landmark) : ℝ :=
  Real.sqrt ((p.x - q.x) ^ 2 + (p.y - q.y) ^ 2)

/-- `calculateFingerSpread` (app.js 1213–1229): mean 2D distance between
consecutive fingertips 4, 8, 12, 16, 20. -/
noncomputable def calculateFingerSpread (lm : Hand) : ℝ :=
  let fingertips : List (Fin 21) := [4, 8, 12, 16, 20]
  let totalSpread := (List.range 4).foldl (fun acc i =>
    acc + dist2d (lm (fingertips.getD i 0)) (lm (fingertips.getD (i + 1) 0))) 0
  totalSpread / 4

open scoped Classical in
/-- `calculatePalmNormal` (app.js 1560–1602): cross product of
(index base − wrist) and (pinky base − wrist), flipped for a geometrically
detected left hand (index.x > pinky.x), then normalized.  When the cross
product is the zero vector (wrist, index base and pinky base collinear in
3D) the JS code divides 0 by 0 and every component is NaN; that case is
modelled as `none`, and a well-defined unit normal as `some`. -/
noncomputable def calculatePalmNormal (lm : Hand) : Option Landmark :=
  let wrist := lm 0
  let index := lm 5
  let pinky := lm 17
  let isLeftHand := index.x > pinky.x
  let v1 : Landmark := ⟨index.x - wrist.x, index.y - wrist.y, index.z - wrist.z⟩
  let v2 : Landmark := ⟨pinky.x - wrist.x, pinky.y - wrist.y, pinky.z - wrist.z⟩
  let n0 : Landmark := ⟨v1.y * v2.z - v1.z * v2.y, v1.z * v2.x - v1.x * v2.z,
    v1.x * v2.y - v1.y * v2.x⟩
  let n : Landmark := if isLeftHand then ⟨-n0.x, -n0.y, -n0.z⟩ else n0
  let length := Real.sqrt (n.x * n.x + n.y * n.y + n.z * n.z)
  if length = 0 then none
  else some ⟨n.x / length, n.y / length, n.z / length⟩

open scoped Classical in
/-- `calculateAlignment` (app.js 1150–1196): 0 if a critical landmark is
within a 3% edge margin, otherwise a weighted sum of area, orientation,
spread and centering scores, clamped to [0, 1].  When the palm normal is
NaN (`none`), the JS arithmetic `NaN * 1.5`, `Math.min(1, NaN)`,
`Math.max(0, NaN)`, the weighted sum and the final clamp all stay NaN, so
the function returns NaN — modelled as `none`. -/
noncomputable def calculateAlignment (lm : Hand) : Option ℝ :=
  let margin : ℝ := 0.03
  let criticalPoints : List (Fin 21) := [0, 4, 8, 12, 16, 20]
  let allVisible := ∀ i ∈ criticalPoints,
    ¬((lm i).x < margin ∨ (lm i).x > 1 - margin ∨
      (lm i).y < margin ∨ (lm i).y > 1 - margin)
  if ¬allVisible then some 0
  else
    match calculatePalmNormal lm with
    | none => none
    | some palmNormal =>
      let palmArea := calculatePalmArea lm
      let minArea : ℝ := 0.01
      let maxArea : ℝ := 0.4
      let areaScore := if palmArea < minArea then palmArea / minArea
        else if palmArea > maxArea then 0.8 else 1
      let orientationScore := max 0 (min 1 (palmNormal.z * 1.5))
      let spreadScore := min 1 (calculateFingerSpread lm / 0.1)
      let palmCenter := calculatePalmCenter lm
      let centerDistance :=
        Real.sqrt ((palmCenter.x - 0.5) ^ 2 + (palmCenter.y - 0.5) ^ 2)
      let centerScore := max 0.5 (1 - centerDistance)
      let alignment := if allVisible then
        areaScore * 0.25 + orientationScore * 0.35 +
          spreadScore * 0.15 + centerScore * 0.25
        else 0
      some (max 0 (min 1 alignment))

/-- The JS comparison `x < c` for a possibly-NaN `x`: false on NaN. -/
def optLT (x : Option ℝ) (c : ℝ) : Prop :=
  match x with
  | some a => a < c
  | none => False

/-- The JS comparison `x >= c` for a possibly-NaN `x`: false on NaN. -/
def optGE (x : Option ℝ) (c : ℝ) : Prop :=
  match x with
  | some a => c ≤ a
  | none => False

open scoped Classical in
/-- `checkFingerExtension` (app.js 1231–1273): a finger counts as extended
when the cosine between base→dip and dip→tip exceeds 0.5; at least 3 of the
4 non-thumb fingers must be extended. -/
noncomputable def checkFingerExtension (lm : Hand) : Prop :=
  let fingerGroups : List (Fin 21 × Fin 21 × Fin 21) :=
    [(5, 7, 8), (9, 11, 12), (13, 15, 16), (17, 19, 20)]
  let extendedCount := fingerGroups.foldl (fun acc g =>
    let base := lm g.1
    let middle := lm g.2.1
    let tip := lm g.2.2
    let v1x := middle.x - base.x
    let v1y := middle.y - base.y
    let v2x := tip.x - middle.x
    let v2y := tip.y - middle.y
    let dot := v1x * v2x + v1y * v2y
    let mag1 := Real.sqrt (v1x * v1x + v1y * v1y)
    let mag2 := Real.sqrt (v2x * v2x + v2y * v2y)
    let alignment := dot / (mag1 * mag2)
    if alignment > 0.5 then acc + 1 else acc) (0 : ℕ)
  extendedCount ≥ 3

open scoped Classical in
/-- `checkHandFlatness` (app.js 1282–1326): at least 3 of 5 fingertips are
both far from the palm center (> 0.15) and from their mid joint (> 0.05),
and the maximal fingertip z-deviation from the wrist stays below 0.15. -/
noncomputable def checkHandFlatness (lm : Hand) : Prop :=
  let palmCenter := calculatePalmCenter lm
  let pairs : List (Fin 21 × Fin 21) := [(4, 3), (8, 6), (12, 10), (16, 14), (20, 18)]
  let openFingers := pairs.foldl (fun acc p =>
    let tip := lm p.1
    let mid := lm p.2
    let tipToPalmDist := dist2d tip palmCenter
    let tipToMidDist := dist2d tip mid
    if tipToPalmDist > 0.15 ∧ tipToMidDist > 0.05 then acc + 1 else acc) (0 : ℕ)
  let palmBase := (lm 0).z
  let fingerTips : List (Fin 21) := [4, 8, 12, 16, 20]
  let maxZDeviation := fingerTips.foldl (fun acc idx =>
    max acc |(lm idx).z - palmBase|) 0
  openFingers ≥ 3 ∧ maxZDeviation < 0.15

open scoped Classical in
/-- `checkPalmOrientation` (app.js 1335–1399): the mean fingertip depth must
not exceed the mean knuckle depth by more than 0.01, and the z-component of
the wrist/index/pinky cross product must have the handedness-appropriate
sign.  This check consults the supplied handedness label. -/
noncomputable def checkPalmOrientation (handed : Handedness) (lm : Hand) : Prop :=
  let wrist := lm 0
  let indexMcp := lm 5
  let middleMcp := lm 9
  let ringMcp := lm 13
  let pinkyMcp := lm 17
  let isLeftHand := handed = Handedness.Left
  let avgFingertipZ := ((lm 4).z + (lm 8).z + (lm 12).z + (lm 16).z + (lm 20).z) / 5
  let avgMcpZ := (indexMcp.z + middleMcp.z + ringMcp.z + pinkyMcp.z) / 4
  let depthCheck := avgFingertipZ < avgMcpZ + 0.01
  let v1 : Landmark := ⟨indexMcp.x - wrist.x, indexMcp.y - wrist.y, indexMcp.z - wrist.z⟩
  let v2 : Landmark := ⟨pinkyMcp.x - wrist.x, pinkyMcp.y - wrist.y, pinkyMcp.z - wrist.z⟩
  let normalZ := v1.x * v2.y - v1.y * v2.x
  let normalCheck := if isLeftHand then normalZ < 0 else normalZ > 0
  depthCheck ∧ normalCheck

/-- Two-argument arctangent `atan2 y x`, matching `Math.atan2`. -/
noncomputable def atan2 (y x : ℝ) : ℝ :=
  if 0 < x then Real.arctan (y / x)
  else if x < 0 then
    if 0 ≤ y then Real.arctan (y / x) + Real.pi
    else Real.arctan (y / x) - Real.pi
  else
    if 0 < y then Real.pi / 2
    else if y < 0 then -(Real.pi / 2)
    else 0

open scoped Classical in
/-- `checkHandRotation` (app.js 1471–1503): signed angle in degrees between
the wrist→middle-base vector and the up vector (0, −1), negated when the
landmark geometry indicates a left hand (index.x > pinky.x).  Note the
supplied handedness label is never consulted. -/
noncomputable def checkHandRotation (lm : Hand) : ℝ :=
  let wrist := lm 0
  let middleBase := lm 9
  let index := lm 5
  let pinky := lm 17
  let isLeftHand := index.x > pinky.x
  let baseVx := middleBase.x - wrist.x
  let baseVy := middleBase.y - wrist.y
  let vertX : ℝ := 0
  let vertY : ℝ := -1
  let dot := baseVx * vertX + baseVy * vertY
  let det := baseVx * vertY - baseVy * vertX
  let angle := atan2 det dot * (180 / Real.pi)
  if isLeftHand then -angle else angle

/-- The pose classification produced by the validation chain in
`updatePalmVisualization` (app.js 1050–1104). -/
inductive Classification where
  | OutOfFrame
  | FingersNotExtended
  | TooClose
  | TooFar
  | NotCentered
  | WrongOrientation
  | Rotated
  | NotFlat
  | Perfect
deriving DecidableEq

open scoped Classical in
/-- The validation chain of `updatePalmVisualization` (app.js 1038–1104):
edge check, finger extension, distance, alignment, then the composite branch
re-checking distance/alignment/extension before orientation, rotation and
flatness.  The two alignment comparisons follow the JS semantics that a
comparison with NaN is false (`optLT`/`optGE`).  `none` models falling
through the chain without any branch taken. -/
noncomputable def classify (handed : Handedness) (lm : Hand) : Option Classification :=
  let margin : ℝ := 0.05
  let fullyVisible := ∀ i : Fin 21,
    ¬((lm i).x < margin ∨ (lm i).x > 1 - margin ∨
      (lm i).y < margin ∨ (lm i).y > 1 - margin)
  let fingersExtended := checkFingerExtension lm
  let distance := calculateDistance lm
  let alignment := calculateAlignment lm
  if ¬fullyVisible then some .OutOfFrame
  else if ¬fingersExtended then some .FingersNotExtended
  else if distance < 5 then some .TooClose
  else if distance > 45 then some .TooFar
  else if optLT alignment 0.3 then some .NotCentered
  else if distance ≥ 5 ∧ distance ≤ 45 ∧ optGE alignment 0.3 ∧ fingersExtended then
    if ¬checkPalmOrientation handed lm then some .WrongOrientation
    else if |checkHandRotation lm| > 30 then some .Rotated
    else if ¬checkHandFlatness lm then some .NotFlat
    else some .Perfect
  else none

/-- The capture-debounce fields of the controller (app.js 92–95):
`isAutoCapturing`, `perfectAlignmentTime`, `lastCaptureTime`
(both timestamps initialised to 0). -/
structure DebounceState where
  isAutoCapturing : Bool
  perfectAlignmentTime : ℤ
  lastCaptureTime : ℤ
deriving DecidableEq

/-- `this.captureCooldown` (app.js 95): 3000 ms between captures. -/
def captureCooldown : ℤ := 3000

/-- `handlePerfectAlignment` (app.js 1663–1682), called once per frame whose
classification is `Perfect`.  Returns the updated debounce state and whether
the capture trigger fired (`this.capture()` was invoked). -/
def handlePerfectAlignment (s : DebounceState) (now : ℤ) : DebounceState × Bool :=
  if now - s.lastCaptureTime < captureCooldown then (s, false)
  else
    let s1 := if !s.isAutoCapturing then
        { s with isAutoCapturing := true, perfectAlignmentTime := now }
      else s
    if now - s1.perfectAlignmentTime ≥ 500 then
      ({ s1 with isAutoCapturing := false, lastCaptureTime := now }, true)
    else (s1, false)

/-- The effect of any non-`Perfect` classification on the debounce state
(app.js 1052–1099): disarm and clear the hold timestamp. -/
def resetAutoCapture (s : DebounceState) : DebounceState :=
  { s with isAutoCapturing := false, perfectAlignmentTime := 0 }

/-- `runPerfect s t0 k`: process `k` consecutive `Perfect` frames at times
`t0, t0 + 100, …, t0 + 100·(k−1)`, returning the final debounce state and
the number of capture fires. -/
def runPerfect (s : DebounceState) (t0 : ℤ) : ℕ → DebounceState × ℕ
  | 0 => (s, 0)
  | k + 1 =>
    let r := runPerfect s t0 k
    let step := handlePerfectAlignment r.1 (t0 + 100 * k)
    (step.1, r.2 + (if step.2 then 1 else 0))

/-- `this.historySize` (app.js 73). -/
def historySize : ℕ := 5

/-- The history update of `onHandResults` (app.js 614–617): push the raw
frame, dropping the oldest when the history exceeds `historySize`. -/
def pushHistory (history : List Hand) (raw : Hand) : List Hand :=
  let h := history ++ [raw]
  if historySize < h.length then h.drop 1 else h

/-- `stabilizeLandmarks` (app.js 653–680): `none` on empty history, the sole
frame on a singleton history, otherwise the per-coordinate recency-weighted
average with weight `(k+1)/historyLength` for the k-th oldest frame,
normalized by the sum of the weights. -/
noncomputable def stabilizeLandmarks (history : List Hand) : Option Hand :=
  if history.length = 0 then none
  else if history.length = 1 then some history.headI
  else
    some (fun i =>
      let n : ℝ := history.length
      let w : ℕ → ℝ := fun k => (k + 1 : ℝ) / n
      let x := ∑ k ∈ Finset.range history.length, ((history.getD k default) i).x * w k
      let y := ∑ k ∈ Finset.range history.length, ((history.getD k default) i).y * w k
      let z := ∑ k ∈ Finset.range history.length, ((history.getD k default) i).z * w k
      let weight := ∑ k ∈ Finset.range history.length, w k
      ⟨x / weight, y / weight, z / weight⟩)

/-- The controller state relevant to the scanning session: scanning flag,
stabilizer history, current (stabilized) palm data, handedness label, and
the capture-debounce fields (app.js 72–95). -/
structure ScannerState where
  isScanning : Bool
  landmarkHistory : List Hand
  palmData : Option Hand
  handedness : Option Handedness
  isAutoCapturing : Bool
  perfectAlignmentTime : ℤ
  lastCaptureTime : ℤ

/-- `stopScanning` (app.js 574–588): its only effect on the core session
state is clearing the scanning flag; the remaining work is DOM/track
cleanup. -/
def stopScanning (s : ScannerState) : ScannerState :=
  { s with isScanning := false }

/-- `onHandResults` (app.js 609–647) restricted to the core session state.
`some (raw, handed)` models a detection, `none` models a hand-lost frame. -/
noncomputable def onHandResults (results : Option (Hand × Option Handedness))
    (s : ScannerState) : ScannerState :=
  match results with
  | some (raw, handed) =>
    let history := pushHistory s.landmarkHistory raw
    { s with
        landmarkHistory := history
        palmData := stabilizeLandmarks history
        handedness := match handed with
          | some h => some h
          | none => s.handedness }
  | none =>
    { s with palmData := none, handedness := none, landmarkHistory := [] }

/-- The metrics snapshot attached to a capture record (app.js 1746–1755).
`alignmentPercent` is `none` when the alignment is NaN (degenerate palm
normal), since `Math.round(NaN * 100)` is NaN. -/
structure CaptureRecord where
  distance : ℤ
  alignmentPercent : Option ℤ

/-- The ways `capture` (app.js 1702–1724) aborts without building a
record. -/
inductive CaptureAbort where
  | noPalmOrStream
  | staleNotFlat
  | staleNotOriented
deriving DecidableEq

open scoped Classical in
/-- `capture` (app.js 1702–1785) restricted to the core: abort when no palm
data or no active stream, re-validate flatness and orientation on the
current landmark set (resetting the debounce hold on failure), otherwise
build the metrics record and reset the hold. -/
noncomputable def capture (handed : Handedness) (palmData : Option Hand)
    (streamActive : Bool) (s : DebounceState) :
    Except CaptureAbort CaptureRecord × DebounceState :=
  match palmData with
  | none => (Except.error CaptureAbort.noPalmOrStream, s)
  | some pd =>
    if streamActive = false then (Except.error CaptureAbort.noPalmOrStream, s)
    else if ¬checkHandFlatness pd then
      (Except.error CaptureAbort.staleNotFlat, resetAutoCapture s)
    else if ¬checkPalmOrientation handed pd then
      (Except.error CaptureAbort.staleNotOriented, resetAutoCapture s)
    else
      (Except.ok ⟨calculateDistance pd,
          (calculateAlignment pd).map (fun a => jsRound (a * 100))⟩,
        resetAutoCapture s)

/-- Modelled on the spec's words for `rotationDeg(landmarks, handedness)`
(§4.2): the atan2 angle of the 2D cross/dot products of the wrist→middle
base vector with the up vector (0, −1), negated when the SUPPLIED handedness
label is Left.  Used to compare the spec's description against
`checkHandRotation`. -/
noncomputable def rotationDegSpec (lm : Hand) (handed : Handedness) : ℝ :=
  let wrist := lm 0
  let middleBase := lm 9
  let baseVx := middleBase.x - wrist.x
  let baseVy := middleBase.y - wrist.y
  let vertX : ℝ := 0
  let vertY : ℝ := -1
  let dot := baseVx * vertX + baseVy * vertY
  let cross := baseVx * vertY - baseVy * vertX
  let angle := atan2 cross dot * (180 / Real.pi)
  if handed = Handedness.Left then -angle else angle

/-- The all-zero hand: every landmark at the top-left corner with depth 0.
Violates the edge margin (x = 0 < 0.05) and the flatness check
(every fingertip coincides with the palm center). -/
def zeroHand : Hand := fun _ => ⟨0, 0, 0⟩

/-- Feeding `n` identical raw frames into the stabilizer history, starting
from an empty history, through the push/cap logic of `onHandResults`. -/
def feedFrames (f : Hand) : ℕ → List Hand
  | 0 => []
  | n + 1 => pushHistory (feedFrames f n) f

/-- A hand whose wrist→middle-base vector points left (angle +90°) and whose
index base is left of its pinky base, so the geometric left-hand detection
of `checkHandRotation` reports a right hand. -/
noncomputable def rotHand : Hand := fun i =>
  if i = 9 then ⟨0.4, 0.5, 0⟩
  else if i = 5 then ⟨0.3, 0.3, 0⟩
  else if i = 17 then ⟨0.6, 0.3, 0⟩
  else ⟨0.5, 0.5, 0⟩

/-- An in-frame, fingers-extended hand at valid distance whose wrist, index
base and pinky base are collinear in 3D: the palm-normal cross product is
the zero vector, so `calculatePalmNormal` is NaN (`none`) and the
classification chain of app.js 1050–1104 takes no branch. -/
noncomputable def degHand : Hand := fun i =>
  if i.val = 0 then ⟨0.3, 0.8, 0⟩
  else if i.val = 1 then ⟨0.4, 0.75, 0⟩
  else if i.val = 2 then ⟨0.42, 0.7, 0⟩
  else if i.val = 3 then ⟨0.44, 0.65, 0⟩
  else if i.val = 4 then ⟨0.46, 0.6, 0⟩
  else if i.val = 5 then ⟨0.5, 0.6, 0⟩
  else if i.val = 6 then ⟨0.5, 0.5, 0⟩
  else if i.val = 7 then ⟨0.5, 0.45, 0⟩
  else if i.val = 8 then ⟨0.5, 0.35, 0⟩
  else if i.val = 9 then ⟨0.6, 0.62, 0⟩
  else if i.val = 10 then ⟨0.6, 0.52, 0⟩
  else if i.val = 11 then ⟨0.6, 0.45, 0⟩
  else if i.val = 12 then ⟨0.6, 0.35, 0⟩
  else if i.val = 13 then ⟨0.65, 0.55, 0⟩
  else if i.val = 14 then ⟨0.65, 0.48, 0⟩
  else if i.val = 15 then ⟨0.65, 0.42, 0⟩
  else if i.val = 16 then ⟨0.65, 0.34, 0⟩
  else if i.val = 17 then ⟨0.7, 0.4, 0⟩
  else if i.val = 18 then ⟨0.7, 0.35, 0⟩
  else if i.val = 19 then ⟨0.7, 0.3, 0⟩
  else ⟨0.7, 0.25, 0⟩

/-- A session state mid-scan with the debouncer armed and a non-empty
stabilizer history. -/
def armedScanner : ScannerState :=
  { isScanning := true
    landmarkHistory := [zeroHand]
    palmData := some zeroHand
    handedness := some Handedness.Right
    isAutoCapturing := true
    perfectAlignmentTime := 1000
    lastCaptureTime := 0 }

lemma jsRound_intCast (n : ℤ) : jsRound (n : ℝ) = n := by
  rw [jsRound, Int.floor_eq_iff]
  constructor
  · linarith
  · linarith

lemma jsRound_mono {x y : ℝ} (h : x ≤ y) : jsRound x ≤ jsRound y :=
  Int.floor_le_floor (by linarith)

lemma le_jsRound (n : ℤ) {x : ℝ} (h : (n : ℝ) ≤ x) : n ≤ jsRound x := by
  have := jsRound_mono h
  rwa [jsRound_intCast] at this

lemma jsRound_le (n : ℤ) {x : ℝ} (h : x ≤ (n : ℝ)) : jsRound x ≤ n := by
  have := jsRound_mono h
  rwa [jsRound_intCast] at this

lemma calculatePalmArea_nonneg (lm : Hand) : 0 ≤ calculatePalmArea lm :=
  abs_nonneg _

/-- C4: the distance estimate is non-increasing in `palmArea`, and the
calibration boundary values hold exactly: area 0.08 ↦ 5 cm, 0.05 ↦ 20 cm,
0.01 ↦ 45 cm. -/
theorem distance_calibration (a b : ℝ) (hab : a ≤ b) :
    distanceFromArea b ≤ distanceFromArea a ∧
    distanceFromArea 0.08 = 5 ∧ distanceFromArea 0.05 = 20 ∧
    distanceFromArea 0.01 = 45 := by
  refine ⟨?_, ?_, ?_, ?_⟩
  · unfold distanceFromArea
    split_ifs with h1 h2 h3 h4 h5 h6 h7 h8 h9 <;>
      first
        | rfl
        | (exact le_jsRound 5 (by linarith))
        | (exact jsRound_mono (by linarith))
        | linarith
  · unfold distanceFromArea
    rw [if_neg (by norm_num), if_pos (by norm_num)]
    have : (5 : ℝ) + (0.08 - 0.08) * 500 = ((5 : ℤ) : ℝ) := by norm_num
    rw [this, jsRound_intCast]
  · unfold distanceFromArea
    rw [if_neg (by norm_num), if_neg (by norm_num), if_pos (by norm_num)]
    have : (20 : ℝ) + (0.05 - 0.05) * 625 = ((20 : ℤ) : ℝ) := by norm_num
    rw [this, jsRound_intCast]
  · unfold distanceFromArea
    rw [if_neg (by norm_num), if_neg (by norm_num), if_neg (by norm_num)]
    have : (45 : ℝ) + (0.01 - 0.01) * 4000 = ((45 : ℤ) : ℝ) := by norm_num
    rw [this, jsRound_intCast]

lemma zeroHand_not_flat : ¬checkHandFlatness zeroHand := by
  intro h
  have hopen := h.1
  norm_num [checkHandFlatness, dist2d, calculatePalmCenter, zeroHand,
    List.foldl, Real.sqrt_zero] at hopen

lemma zeroHand_edge :
    ∃ i : Fin 21, (zeroHand i).x < 0.05 ∨ (zeroHand i).x > 1 - 0.05 ∨
      (zeroHand i).y < 0.05 ∨ (zeroHand i).y > 1 - 0.05 :=
  ⟨0, Or.inl (by norm_num [zeroHand])⟩

lemma sqrt_val {a c : ℝ} (hc : 0 ≤ c) (h : a = c ^ 2) : Real.sqrt a = c := by
  rw [h, Real.sqrt_sq hc]

lemma degHand_palmNormal : calculatePalmNormal degHand = none := by
  have h0 : degHand 0 = ⟨0.3, 0.8, 0⟩ := rfl
  have h5 : degHand 5 = ⟨0.5, 0.6, 0⟩ := rfl
  have h17 : degHand 17 = ⟨0.7, 0.4, 0⟩ := rfl
  simp only [calculatePalmNormal, h0, h5, h17]
  norm_num

lemma degHand_fullyVisible : ∀ i : Fin 21,
    ¬((degHand i).x < (0.05 : ℝ) ∨ (degHand i).x > 1 - 0.05 ∨
      (degHand i).y < (0.05 : ℝ) ∨ (degHand i).y > 1 - 0.05) := by
  intro i
  obtain ⟨v, hv⟩ := i
  interval_cases v <;> norm_num [degHand]

lemma degHand_alignment : calculateAlignment degHand = none := by
  have hav : ∀ i ∈ ([0, 4, 8, 12, 16, 20] : List (Fin 21)),
      ¬((degHand i).x < (0.03 : ℝ) ∨ (degHand i).x > 1 - 0.03 ∨
        (degHand i).y < (0.03 : ℝ) ∨ (degHand i).y > 1 - 0.03) := by
    intro i hi
    have h := degHand_fullyVisible i
    push_neg at h ⊢
    obtain ⟨h1, h2, h3, h4⟩ := h
    exact ⟨by linarith, by linarith, by linarith, by linarith⟩
  simp only [calculateAlignment]
  rw [if_neg (not_not_intro hav), degHand_palmNormal]

lemma degHand_fingersExtended : checkFingerExtension degHand := by
  have h5 : degHand 5 = ⟨0.5, 0.6, 0⟩ := rfl
  have h7 : degHand 7 = ⟨0.5, 0.45, 0⟩ := rfl
  have h8 : degHand 8 = ⟨0.5, 0.35, 0⟩ := rfl
  have h9 : degHand 9 = ⟨0.6, 0.62, 0⟩ := rfl
  have h11 : degHand 11 = ⟨0.6, 0.45, 0⟩ := rfl
  have h12 : degHand 12 = ⟨0.6, 0.35, 0⟩ := rfl
  have h13 : degHand 13 = ⟨0.65, 0.55, 0⟩ := rfl
  have h15 : degHand 15 = ⟨0.65, 0.42, 0⟩ := rfl
  have h16 : degHand 16 = ⟨0.65, 0.34, 0⟩ := rfl
  have h17 : degHand 17 = ⟨0.7, 0.4, 0⟩ := rfl
  have h19 : degHand 19 = ⟨0.7, 0.3, 0⟩ := rfl
  have h20 : degHand 20 = ⟨0.7, 0.25, 0⟩ := rfl
  have s1 : Real.sqrt ((9 : ℝ) / 400) = 3 / 20 :=
    sqrt_val (by norm_num) (by norm_num)
  have s2 : Real.sqrt ((1 : ℝ) / 100) = 1 / 10 :=
    sqrt_val (by norm_num) (by norm_num)
  have s3 : Real.sqrt ((289 : ℝ) / 10000) = 17 / 100 :=
    sqrt_val (by norm_num) (by norm_num)
  have s4 : Real.sqrt ((169 : ℝ) / 10000) = 13 / 100 :=
    sqrt_val (by norm_num) (by norm_num)
  have s5 : Real.sqrt ((1 : ℝ) / 400) = 1 / 20 :=
    sqrt_val (by norm_num) (by norm_num)
  have s6 : Real.sqrt ((4 : ℝ) / 625) = 2 / 25 :=
    sqrt_val (by norm_num) (by norm_num)
  simp only [checkFingerExtension, List.foldl_cons, List.foldl_nil,
    h5, h7, h8, h9, h11, h12, h13, h15, h16, h17, h19, h20]
  norm_num [s1, s2, s3, s4, s5, s6]

lemma degHand_area : calculatePalmArea degHand = 7 / 500 := by
  have h0 : degHand 0 = ⟨0.3, 0.8, 0⟩ := rfl
  have h5 : degHand 5 = ⟨0.5, 0.6, 0⟩ := rfl
  have h9 : degHand 9 = ⟨0.6, 0.62, 0⟩ := rfl
  have h13 : degHand 13 = ⟨0.65, 0.55, 0⟩ := rfl
  have h17 : degHand 17 = ⟨0.7, 0.4, 0⟩ := rfl
  have hr : List.range 5 = [0, 1, 2, 3, 4] := rfl
  simp only [calculatePalmArea, hr, List.foldl_cons, List.foldl_nil]
  norm_num [h0, h5, h9, h13, h17]

lemma degHand_distance : calculateDistance degHand = 43 := by
  rw [calculateDistance, degHand_area]
  unfold distanceFromArea
  rw [if_neg (by norm_num), if_neg (by norm_num), if_pos (by norm_num)]
  norm_num [jsRound]

lemma optLT_none (c : ℝ) : ¬optLT none c := fun h => h

lemma optGE_none (c : ℝ) : ¬optGE none c := fun h => h

/-- C9 counterexample: the degenerate hand `degHand` is fully in frame with
extended fingers at distance 43 cm, yet its collinear palm triangle makes
the alignment NaN, both alignment tests evaluate false, and the chain takes
no branch: `classify` returns `none`. -/
theorem classify_not_total :
    classify Handedness.Right degHand = none ∧
    calculateDistance degHand = 43 := by
  refine ⟨?_, degHand_distance⟩
  simp only [classify]
  rw [if_neg (not_not_intro degHand_fullyVisible),
    if_neg (not_not_intro degHand_fingersExtended), degHand_distance,
    if_neg (by norm_num : ¬(43 : ℤ) < 5), if_neg (by norm_num : ¬(43 : ℤ) > 45),
    degHand_alignment, if_neg (optLT_none 0.3),
    if_neg (fun h => optGE_none 0.3 h.2.2.1)]

/-- C9 amended: the classification chain is total for every landmark set
whose palm normal is well-defined (nonzero wrist/index-base/pinky-base cross
product): then alignment is a number, the final composite guard follows from
the failure of the preceding branches, and no frame falls through. -/
theorem classify_total_nondegenerate (handed : Handedness) (lm : Hand)
    (h : calculatePalmNormal lm ≠ none) :
    (classify handed lm).isSome := by
  have hal : ∃ a, calculateAlignment lm = some a := by
    obtain ⟨pn, hpn⟩ := Option.ne_none_iff_exists'.mp h
    simp only [calculateAlignment, hpn]
    exact ⟨_, (apply_ite some _ _ _).symm⟩
  obtain ⟨a, ha⟩ := hal
  simp only [classify]
  rw [ha]
  split_ifs with h1 h2 h3 h4 h5 h6 h7 h8 h9 <;>
    first
      | rfl
      | (exact absurd
          ⟨le_of_not_lt h3, le_of_not_lt h4, le_of_not_lt h5, h2⟩ h6)

lemma rotHand_palmNormal_ne : calculatePalmNormal rotHand ≠ none := by
  have h0 : rotHand 0 = ⟨0.5, 0.5, 0⟩ := rfl
  have h5 : rotHand 5 = ⟨0.3, 0.3, 0⟩ := rfl
  have h17 : rotHand 17 = ⟨0.6, 0.3, 0⟩ := rfl
  simp only [calculatePalmNormal, h0, h5, h17]
  norm_num [Real.sqrt_eq_zero']
  exact Option.some_ne_none _

/-- C9 amended-theorem witness: `rotHand` has a nonzero palm-normal cross
product, so its classification is defined. -/
theorem classify_total_nondegenerate_witness :
    calculatePalmNormal rotHand ≠ none ∧
    (classify Handedness.Right rotHand).isSome :=
  ⟨rotHand_palmNormal_ne,
    classify_total_nondegenerate Handedness.Right rotHand rotHand_palmNormal_ne⟩

/-- C3: a landmark set violating both the 5% edge margin and the flatness
check is classified `OutOfFrame`, not `NotFlat` — the edge check comes first
in the chain. -/
theorem classify_priority (handed : Handedness) (lm : Hand)
    (hedge : ∃ i : Fin 21, (lm i).x < 0.05 ∨ (lm i).x > 1 - 0.05 ∨
      (lm i).y < 0.05 ∨ (lm i).y > 1 - 0.05)
    (hflat : ¬checkHandFlatness lm) :
    classify handed lm = some Classification.OutOfFrame := by
  simp only [classify]
  split_ifs with h1 <;>
    first
      | rfl
      | (exfalso
         obtain ⟨i, hi⟩ := hedge
         exact h1 i hi)

/-- C3 witness: the all-zero hand violates both checks and is classified
`OutOfFrame`. -/
theorem classify_priority_witness :
    (∃ i : Fin 21, (zeroHand i).x < 0.05 ∨ (zeroHand i).x > 1 - 0.05 ∨
      (zeroHand i).y < 0.05 ∨ (zeroHand i).y > 1 - 0.05) ∧
    ¬checkHandFlatness zeroHand ∧
    classify Handedness.Right zeroHand = some Classification.OutOfFrame :=
  ⟨zeroHand_edge, zeroHand_not_flat,
    classify_priority Handedness.Right zeroHand zeroHand_edge zeroHand_not_flat⟩

/-- C4 witness: the calibration theorem applied at the concrete pair
a = 0.03 ≤ b = 0.04. -/
theorem distance_calibration_witness :
    distanceFromArea 0.04 ≤ distanceFromArea 0.03 ∧
    distanceFromArea 0.08 = 5 ∧ distanceFromArea 0.05 = 20 ∧
    distanceFromArea 0.01 = 45 :=
  distance_calibration 0.03 0.04 (by norm_num)

/-- C10: for every hand, the distance estimate is an integer between 5 and
85 cm inclusive: the palm area is non-negative, so the far branch is bounded
by 85, and every branch rounds to at least 5. -/
theorem distance_bounds (lm : Hand) :
    5 ≤ calculateDistance lm ∧ calculateDistance lm ≤ 85 := by
  have ha : 0 ≤ calculatePalmArea lm := calculatePalmArea_nonneg lm
  unfold calculateDistance distanceFromArea
  set a := calculatePalmArea lm with hadef
  split_ifs with h1 h2 h3
  · exact ⟨le_refl 5, by norm_num⟩
  · exact ⟨le_jsRound 5 (by linarith), jsRound_le 85 (by linarith)⟩
  · exact ⟨le_trans (by norm_num) (le_jsRound 20 (by linarith)),
      jsRound_le 85 (by linarith)⟩
  · exact ⟨le_trans (by norm_num) (le_jsRound 45 (by linarith)),
      jsRound_le 85 (by linarith)⟩

lemma hpa_cooldown (s : DebounceState) (now : ℤ)
    (h : now - s.lastCaptureTime < captureCooldown) :
    handlePerfectAlignment s now = (s, false) := by
  simp [handlePerfectAlignment, h]

lemma hpa_arm (s : DebounceState) (now : ℤ)
    (h1 : ¬(now - s.lastCaptureTime < captureCooldown))
    (h2 : s.isAutoCapturing = false) :
    handlePerfectAlignment s now =
      ({ s with isAutoCapturing := true, perfectAlignmentTime := now }, false) := by
  unfold handlePerfectAlignment
  rw [if_neg h1, h2]
  simp only [Bool.not_false, if_true]
  rw [if_neg (by show ¬(now - now ≥ 500); omega)]

lemma hpa_hold (s : DebounceState) (now : ℤ)
    (h1 : ¬(now - s.lastCaptureTime < captureCooldown))
    (h2 : s.isAutoCapturing = true)
    (h3 : now - s.perfectAlignmentTime < 500) :
    handlePerfectAlignment s now = (s, false) := by
  unfold handlePerfectAlignment
  rw [if_neg h1, h2]
  simp only [Bool.not_true, Bool.false_eq_true, if_false]
  rw [if_neg (by omega)]

lemma hpa_fire (s : DebounceState) (now : ℤ)
    (h1 : ¬(now - s.lastCaptureTime < captureCooldown))
    (h2 : s.isAutoCapturing = true)
    (h3 : 500 ≤ now - s.perfectAlignmentTime) :
    handlePerfectAlignment s now =
      ({ s with isAutoCapturing := false, lastCaptureTime := now }, true) := by
  unfold handlePerfectAlignment
  rw [if_neg h1, h2]
  simp only [Bool.not_true, Bool.false_eq_true, if_false]
  rw [if_pos (by omega)]

/-- Closed form for a run of consecutive `Perfect` frames at 100 ms spacing
from an idle state with cooldown elapsed: frames 1–5 are armed with the
hold stamped at `t0`, frame 6 onwards has fired exactly once (valid while
the post-capture cooldown is still running, i.e. `k ≤ 35`). -/
lemma runPerfect_closed (s : DebounceState) (t0 : ℤ)
    (h0 : s.isAutoCapturing = false) (hc : 3000 ≤ t0 - s.lastCaptureTime) :
    ∀ k : ℕ, k ≤ 35 →
      runPerfect s t0 k =
        if k = 0 then (s, 0)
        else if k ≤ 5 then
          ({ s with isAutoCapturing := true, perfectAlignmentTime := t0 }, 0)
        else
          ({ s with isAutoCapturing := false, perfectAlignmentTime := t0
                    lastCaptureTime := t0 + 500 }, 1) := by
  intro k
  induction k with
  | zero => intro _; simp [runPerfect]
  | succ n ih =>
    intro hk
    have hrec := ih (by omega)
    simp only [runPerfect]
    rw [hrec]
    by_cases hn0 : n = 0
    · subst hn0
      rw [if_pos rfl]
      have harm := hpa_arm s (t0 + 100 * ((0 : ℕ) : ℤ))
        (by show ¬(t0 + 100 * ((0 : ℕ) : ℤ) - s.lastCaptureTime < captureCooldown)
            simp only [captureCooldown]
            push_cast
            omega) h0
      simp only [Nat.cast_zero] at harm ⊢
      rw [harm]
      norm_num
    · rw [if_neg hn0]
      by_cases hn5 : n ≤ 5
      · rw [if_pos hn5]
        by_cases hn5' : n = 5
        · subst hn5'
          have hstep := hpa_fire
            { s with isAutoCapturing := true, perfectAlignmentTime := t0 }
            (t0 + 100 * ((5 : ℕ) : ℤ))
            (by show ¬(t0 + 100 * ((5 : ℕ) : ℤ) - s.lastCaptureTime < captureCooldown)
                simp only [captureCooldown]
                push_cast
                omega)
            rfl
            (by show (500 : ℤ) ≤ t0 + 100 * ((5 : ℕ) : ℤ) - t0
                push_cast
                omega)
          rw [hstep]
          rw [if_neg (by omega : ¬(5 + 1 = 0)), if_neg (by omega : ¬(5 + 1 ≤ 5))]
          simp only [Prod.mk.injEq, DebounceState.mk.injEq]
          norm_num
        · have hstep := hpa_hold
            { s with isAutoCapturing := true, perfectAlignmentTime := t0 }
            (t0 + 100 * (n : ℤ))
            (by show ¬(t0 + 100 * (n : ℤ) - s.lastCaptureTime < captureCooldown)
                simp only [captureCooldown]
                omega)
            rfl
            (by show t0 + 100 * (n : ℤ) - t0 < 500
                omega)
          rw [hstep]
          rw [if_neg (by omega : ¬(n + 1 = 0)), if_pos (by omega : n + 1 ≤ 5)]
          norm_num
      · rw [if_neg hn5]
        have hstep := hpa_cooldown
          { s with isAutoCapturing := false, perfectAlignmentTime := t0
                   lastCaptureTime := t0 + 500 }
          (t0 + 100 * (n : ℤ))
          (by show t0 + 100 * (n : ℤ) - (t0 + 500) < captureCooldown
              simp only [captureCooldown]
              omega)
        rw [hstep]
        rw [if_neg (by omega : ¬(n + 1 = 0)), if_neg (by omega : ¬(n + 1 ≤ 5))]
        norm_num

/-- C1: from Idle with cooldown elapsed, a 100 ms-spaced run of `Perfect`
frames arms at the first frame (stamping `perfectAlignmentTime := t0`),
never re-stamps it while armed, does not fire during frames 1–5, and fires
exactly once — at frame index 5, the first frame with now − armedAt ≥ 500 —
with the fire count staying 1 for the rest of the cooldown window. -/
theorem debounce_fires_once (s : DebounceState) (t0 : ℤ)
    (h0 : s.isAutoCapturing = false) (hc : 3000 ≤ t0 - s.lastCaptureTime) :
    (∀ k, k ≤ 35 → (runPerfect s t0 k).2 = if 6 ≤ k then 1 else 0) ∧
    (∀ j, 1 ≤ j → j ≤ 5 → (runPerfect s t0 j).1.perfectAlignmentTime = t0 ∧
      (runPerfect s t0 j).1.isAutoCapturing = true) ∧
    (runPerfect s t0 6).1.lastCaptureTime = t0 + 500 := by
  have hcf := runPerfect_closed s t0 h0 hc
  refine ⟨?_, ?_, ?_⟩
  · intro k hk
    rw [hcf k hk]
    by_cases hk0 : k = 0
    · subst hk0; norm_num
    · by_cases hk5 : k ≤ 5
      · rw [if_neg hk0, if_pos hk5, if_neg (by omega)]
      · rw [if_neg hk0, if_neg hk5, if_pos (by omega)]
  · intro j hj1 hj5
    rw [hcf j (by omega), if_neg (by omega), if_pos hj5]
    exact ⟨rfl, rfl⟩
  · rw [hcf 6 (by omega), if_neg (by omega), if_neg (by omega)]

/-- C1 witness: the theorem applied at the initial controller state
(`isAutoCapturing = false`, both timestamps 0) and `t0 = 3000`. -/
theorem debounce_fires_once_witness :
    (runPerfect ⟨false, 0, 0⟩ 3000 6).2 = 1 ∧
    (runPerfect ⟨false, 0, 0⟩ 3000 5).2 = 0 ∧
    (runPerfect ⟨false, 0, 0⟩ 3000 5).1.perfectAlignmentTime = 3000 := by
  have h := debounce_fires_once ⟨false, 0, 0⟩ 3000 rfl (by norm_num)
  refine ⟨?_, ?_, (h.2.1 5 (by norm_num) (by norm_num)).1⟩
  · rw [h.1 6 (by norm_num)]; norm_num
  · rw [h.1 5 (by norm_num)]; norm_num

/-- Any sequence of frames, `Perfect` or not, whose times all lie strictly
within the cooldown window of `lastCaptureTime`, produces no fire and leaves
`lastCaptureTime` unchanged. -/
lemma runPerfect_in_cooldown (t : ℤ) :
    ∀ (m : ℕ) (s : DebounceState),
      (∀ j : ℕ, j < m → t + 100 * (j : ℤ) - s.lastCaptureTime < captureCooldown) →
      runPerfect s t m = (s, 0) := by
  intro m
  induction m with
  | zero => intro s _; simp [runPerfect]
  | succ n ih =>
    intro s hall
    simp only [runPerfect]
    rw [ih s (fun j hj => hall j (by omega))]
    rw [hpa_cooldown _ _ (hall n (by omega))]
    norm_num

/-- C2: within the cooldown window a `Perfect` frame neither arms nor fires
(the state is returned unchanged); consequently a first full hold-sequence
followed by a second full 6-frame hold-sequence completing less than
`cooldownMs` after the first capture produces exactly one fire in total. -/
theorem cooldown_suppression (s : DebounceState) (t0 t1 : ℤ)
    (h0 : s.isAutoCapturing = false) (hc : 3000 ≤ t0 - s.lastCaptureTime)
    (hlt : t1 + 500 - (t0 + 500) < 3000) :
    (∀ (s' : DebounceState) (now : ℤ), now - s'.lastCaptureTime < 3000 →
      handlePerfectAlignment s' now = (s', false)) ∧
    (runPerfect s t0 6).2 = 1 ∧
    (runPerfect (runPerfect s t0 6).1 t1 6).2 = 0 := by
  have hcf := runPerfect_closed s t0 h0 hc
  have h6 : runPerfect s t0 6 =
      ({ s with isAutoCapturing := false, perfectAlignmentTime := t0
                lastCaptureTime := t0 + 500 }, 1) := by
    rw [hcf 6 (by omega), if_neg (by omega), if_neg (by omega)]
  refine ⟨fun s' now h => hpa_cooldown s' now h, by rw [h6], ?_⟩
  rw [h6]
  rw [runPerfect_in_cooldown t1 6 _ (fun j hj => by
    simp only [captureCooldown]
    have : (j : ℤ) ≤ 5 := by omega
    omega)]

/-- C2 witness: concrete instance with the first sequence at t0 = 3000 and
the second starting 600 ms after the capture. -/
theorem cooldown_suppression_witness :
    (runPerfect ⟨false, 0, 0⟩ 3000 6).2 = 1 ∧
    (runPerfect (runPerfect ⟨false, 0, 0⟩ 3000 6).1 4100 6).2 = 0 := by
  have h := cooldown_suppression ⟨false, 0, 0⟩ 3000 4100 rfl (by norm_num)
    (by norm_num)
  exact ⟨h.2.1, h.2.2⟩

lemma feedFrames_eq_replicate (f : Hand) :
    ∀ n : ℕ, feedFrames f n = List.replicate (min n 5) f := by
  intro n
  induction n with
  | zero => simp [feedFrames]
  | succ n ih =>
    rw [feedFrames, ih, pushHistory]
    simp only [historySize, List.length_append, List.length_replicate,
      List.length_singleton]
    by_cases h : n ≥ 5
    · rw [if_pos (by omega)]
      have hmin : min n 5 = 5 := by omega
      have hmin' : min (n + 1) 5 = 5 := by omega
      rw [hmin, hmin', ← List.replicate_succ' 5 f, List.drop_replicate]
    · rw [if_neg (by omega)]
      have hmin : min n 5 = n := by omega
      have hmin' : min (n + 1) 5 = n + 1 := by omega
      rw [hmin, hmin', ← List.replicate_succ' n f]

lemma getD_replicate {k m : ℕ} (hk : k < m) (f : Hand) :
    (List.replicate m f).getD k default = f := by
  rw [List.getD_eq_getElem?_getD, List.getElem?_replicate, if_pos hk]
  rfl

lemma stabilize_replicate (m : ℕ) (hm : 1 ≤ m) (f : Hand) :
    stabilizeLandmarks (List.replicate m f) = some f := by
  rcases eq_or_lt_of_le hm with h1 | h1
  · rw [← h1]
    simp [stabilizeLandmarks]
  · have hm0 : (List.replicate m f).length = m := List.length_replicate m f
    rw [stabilizeLandmarks]
    rw [hm0]
    rw [if_neg (by omega), if_neg (by omega)]
    refine congrArg some (funext fun i => ?_)
    have hW : (0 : ℝ) < ∑ k ∈ Finset.range m, ((k : ℝ) + 1) / m := by
      apply Finset.sum_pos
      · intro k _
        apply div_pos (by positivity)
          (by exact_mod_cast Nat.lt_of_lt_of_le Nat.zero_lt_one hm)
      · exact Finset.nonempty_range_iff.mpr (by omega)
    have hx : ∀ g : Landmark → ℝ,
        (∑ k ∈ Finset.range m,
            g ((List.replicate m f).getD k default i) * (((k : ℝ) + 1) / m)) =
          g (f i) * ∑ k ∈ Finset.range m, ((k : ℝ) + 1) / m := by
      intro g
      rw [Finset.mul_sum]
      apply Finset.sum_congr rfl
      intro k hk
      rw [getD_replicate (Finset.mem_range.mp hk) f]
    simp only [hm0]
    ext <;> simp only [hx] <;>
      exact mul_div_cancel_right₀ _ (ne_of_gt hW)

/-- C6: feeding any number N ≥ 1 of identical frames through the history
push/cap and the stabilizer returns that frame unchanged, and a singleton
history returns its frame unmodified. -/
theorem stabilizer_identity (n : ℕ) (hn : 1 ≤ n) (f : Hand) :
    stabilizeLandmarks (feedFrames f n) = some f ∧
    stabilizeLandmarks [f] = some f := by
  constructor
  · rw [feedFrames_eq_replicate]
    exact stabilize_replicate (min n 5) (by omega) f
  · simp [stabilizeLandmarks]

/-- C6 witness: three identical all-zero frames come back unchanged. -/
theorem stabilizer_identity_witness :
    stabilizeLandmarks (feedFrames zeroHand 3) = some zeroHand ∧
    stabilizeLandmarks [zeroHand] = some zeroHand :=
  stabilizer_identity 3 (by norm_num) zeroHand

/-- C5 counterexample: from an armed mid-scan state, `stopScanning` leaves
the stabilizer history and the armed debouncer untouched, and a null
observation (hand lost) clears the history but leaves the debouncer armed —
refuting the claim that both are reset to Idle/empty in both situations. -/
theorem session_reset_counterexample :
    (stopScanning armedScanner).landmarkHistory = [zeroHand] ∧
    (stopScanning armedScanner).isAutoCapturing = true ∧
    (stopScanning armedScanner).perfectAlignmentTime = 1000 ∧
    (onHandResults none armedScanner).isAutoCapturing = true ∧
    (onHandResults none armedScanner).perfectAlignmentTime = 1000 ∧
    ¬((stopScanning armedScanner).landmarkHistory = [] ∧
      (stopScanning armedScanner).isAutoCapturing = false) :=
  ⟨rfl, rfl, rfl, rfl, rfl, fun h => Bool.noConfusion h.2⟩

/-- C5 amended: a null observation clears the stabilizer history and palm
data but leaves every debounce field unchanged; `stopScanning` clears only
the scanning flag, leaving both the history and the debouncer unchanged. -/
theorem session_reset_partial (s : ScannerState) :
    (onHandResults none s).landmarkHistory = [] ∧
    (onHandResults none s).palmData = none ∧
    (onHandResults none s).isAutoCapturing = s.isAutoCapturing ∧
    (onHandResults none s).perfectAlignmentTime = s.perfectAlignmentTime ∧
    (onHandResults none s).lastCaptureTime = s.lastCaptureTime ∧
    (stopScanning s).isScanning = false ∧
    (stopScanning s).landmarkHistory = s.landmarkHistory ∧
    (stopScanning s).isAutoCapturing = s.isAutoCapturing ∧
    (stopScanning s).perfectAlignmentTime = s.perfectAlignmentTime :=
  ⟨rfl, rfl, rfl, rfl, rfl, rfl, rfl, rfl, rfl⟩

/-- C8: with palm data present and the stream active, if the at-fire-time
re-validation of flatness or orientation fails, `capture` aborts with a
stale-hand error and emits no record. -/
theorem capture_revalidates (handed : Handedness) (pd : Hand) (s : DebounceState)
    (h : ¬checkHandFlatness pd ∨ ¬checkPalmOrientation handed pd) :
    ∃ e : CaptureAbort, (capture handed (some pd) true s).1 = Except.error e ∧
      (e = CaptureAbort.staleNotFlat ∨ e = CaptureAbort.staleNotOriented) := by
  classical
  rcases h with h | h
  · refine ⟨CaptureAbort.staleNotFlat, ?_, Or.inl rfl⟩
    simp only [capture]
    rw [if_pos h]
    norm_num
  · by_cases hf : checkHandFlatness pd
    · refine ⟨CaptureAbort.staleNotOriented, ?_, Or.inr rfl⟩
      simp only [capture]
      rw [if_neg (not_not_intro hf), if_pos h]
      norm_num
    · refine ⟨CaptureAbort.staleNotFlat, ?_, Or.inl rfl⟩
      simp only [capture]
      rw [if_pos hf]
      norm_num

/-- C8 witness: the all-zero hand fails the flatness re-validation, so
`capture` aborts with `staleNotFlat`. -/
theorem capture_revalidates_witness :
    ¬checkHandFlatness zeroHand ∧
    ∃ e : CaptureAbort,
      (capture Handedness.Right (some zeroHand) true ⟨false, 0, 0⟩).1 =
        Except.error e ∧
      (e = CaptureAbort.staleNotFlat ∨ e = CaptureAbort.staleNotOriented) :=
  ⟨zeroHand_not_flat,
    capture_revalidates Handedness.Right zeroHand ⟨false, 0, 0⟩
      (Or.inl zeroHand_not_flat)⟩

lemma atan2_pos_zero {y : ℝ} (hy : 0 < y) : atan2 y 0 = Real.pi / 2 := by
  unfold atan2
  rw [if_neg (lt_irrefl 0), if_neg (lt_irrefl 0), if_pos hy]

lemma pi_half_mul_deg : Real.pi / 2 * (180 / Real.pi) = 90 := by
  have hπ := Real.pi_ne_zero
  field_simp
  ring

/-- C7 counterexample: on a hand whose wrist→middle-base vector gives a
+90° raw angle and whose index base is left of its pinky base,
`checkHandRotation` returns 90 even though the supplied label is Left, while
the spec's rule (negate when the label is Left) gives −90. -/
theorem rotation_label_counterexample :
    checkHandRotation rotHand = 90 ∧
    rotationDegSpec rotHand Handedness.Left = -90 ∧
    checkHandRotation rotHand ≠ rotationDegSpec rotHand Handedness.Left := by
  have h9 : rotHand 9 = ⟨0.4, 0.5, 0⟩ := rfl
  have h0 : rotHand 0 = ⟨0.5, 0.5, 0⟩ := rfl
  have h5 : rotHand 5 = ⟨0.3, 0.3, 0⟩ := rfl
  have h17 : rotHand 17 = ⟨0.6, 0.3, 0⟩ := rfl
  have hcode : checkHandRotation rotHand = 90 := by
    simp only [checkHandRotation, h9, h0, h5, h17]
    rw [if_neg (by norm_num)]
    have hdet : ((0.4 : ℝ) - 0.5) * (-1) - ((0.5 : ℝ) - 0.5) * 0 = 0.1 := by
      norm_num
    have hdot : ((0.4 : ℝ) - 0.5) * 0 + ((0.5 : ℝ) - 0.5) * (-1) = 0 := by
      norm_num
    rw [hdet, hdot, atan2_pos_zero (by norm_num), pi_half_mul_deg]
  have hspec : rotationDegSpec rotHand Handedness.Left = -90 := by
    simp only [rotationDegSpec, h9, h0]
    rw [if_pos trivial]
    have hdet : ((0.4 : ℝ) - 0.5) * (-1) - ((0.5 : ℝ) - 0.5) * 0 = 0.1 := by
      norm_num
    have hdot : ((0.4 : ℝ) - 0.5) * 0 + ((0.5 : ℝ) - 0.5) * (-1) = 0 := by
      norm_num
    rw [hdet, hdot, atan2_pos_zero (by norm_num), pi_half_mul_deg]
  exact ⟨hcode, hspec, by rw [hcode, hspec]; norm_num⟩

/-- C7 amended: `checkHandRotation` never consults the supplied handedness
label; its negation is governed by the geometric test index.x > pinky.x, so
it agrees with the spec's formula evaluated at the geometrically detected
handedness. -/
theorem rotation_follows_geometry (lm : Hand) :
    checkHandRotation lm =
      rotationDegSpec lm
        (if (lm 5).x > (lm 17).x then Handedness.Left else Handedness.Right) := by
  simp only [checkHandRotation, rotationDegSpec]
  by_cases h : (lm 5).x > (lm 17).x
  · simp [h]
  · simp [h]

end DotProjector
